import Mathlib

/-!
# Verification of the choc WebView bridge protocol

A shallow embedding of `gui/choc_WebView.h` (plus `gui/im_Win_Webview.cpp`
and `gui/im_MacOS_Webview.h`): the function-binding registry, the call
correlation protocol (`WebView::invokeBinding`), the injected JS shim, the
script-evaluation completion paths of the three engine adapters, and the
resource-fetch bridge.

JSON parsing/serialisation (`choc::json::parse`, `choc::json::toString`,
`choc::value::Value`) lives in `text/choc_JSON.h` / `containers/choc_Value.h`,
which are part of the repository but not under `src/`; those parts are
modelled from the spec, as marked on each definition.
-/

namespace ChocWebView

/-- Modelled from the spec: a JSON-compatible structured value
(`choc::value::Value` restricted to the JSON-representable types that travel
over the bridge; `containers/choc_Value.h` is not under `src/`).  Floating
point numbers are not modelled; the empty/void value that
`choc::value::ValueView::operator[]` yields for a missing object member is
represented by `Json.null`. -/
inductive Json where
  | null : Json
  | bool (b : Bool) : Json
  | int (n : Int) : Json
  | str (s : String) : Json
  | arr (elems : List Json) : Json
  | obj (members : List (String × Json)) : Json

/-- Escapes quotes and backslashes in a JSON string literal body. -/
def jsonEscape : List Char → String
  | [] => ""
  | c :: rest =>
      (if c = '"' then "\\\"" else if c = '\\' then "\\\\" else String.singleton c)
        ++ jsonEscape rest

mutual

/-- Modelled from the spec: `choc::json::toString` — "serialize the return
value to JSON" (`text/choc_JSON.h` is not under `src/`).  String escaping is
limited to quotes and backslashes; no claim depends on the escaping rules. -/
def jsonToString : Json → String
  | Json.null => "null"
  | Json.bool b => if b then "true" else "false"
  | Json.int n => toString n
  | Json.str s => "\"" ++ jsonEscape s.data ++ "\""
  | Json.arr elems => "[" ++ jsonListToString elems ++ "]"
  | Json.obj members => "\x7b" ++ jsonMembersToString members ++ "\x7d"

/-- Serialises the elements of a JSON array, comma-separated. -/
def jsonListToString : List Json → String
  | [] => ""
  | [x] => jsonToString x
  | x :: y :: rest => jsonToString x ++ "," ++ jsonListToString (y :: rest)

/-- Serialises the members of a JSON object, comma-separated. -/
def jsonMembersToString : List (String × Json) → String
  | [] => ""
  | [m] => "\"" ++ jsonEscape m.1.data ++ "\": " ++ jsonToString m.2
  | m :: y :: rest =>
      "\"" ++ jsonEscape m.1.data ++ "\": " ++ jsonToString m.2 ++ ","
        ++ jsonMembersToString (y :: rest)

end

/-- Modelled from the spec: `choc::value::ValueView::operator[] (name)` —
looks up a named member of a JSON object; anything other than an object with
that member yields the void value, represented here by `none`. -/
def getMember (j : Json) (name : String) : Option Json :=
  match j with
  | Json.obj members => (members.find? (fun m => m.1 == name)).map Prod.snd
  | _ => none

/-- Modelled from the spec: `json["fn"].getString()` — returns the string
content of the member, and throws (represented by `none`) when the member is
missing or not a string ("No other shape is accepted"). -/
def getMemberString (j : Json) (name : String) : Option String :=
  match getMember j name with
  | some (Json.str s) => some s
  | _ => none

/-- Modelled from the spec: `json["id"].getWithDefault<int64_t> (0)` —
the integer content of the member, or the default when the member is missing
or not an integer ("missing id" is dropped, i.e. defaults to 0). -/
def getMemberIntOrDefault (j : Json) (name : String) (dflt : Int) : Int :=
  match getMember j name with
  | some (Json.int n) => n
  | _ => dflt

/-- `json["params"]`: the structured argument view handed to the native
callback; a missing member is the void value (`Json.null` here). -/
def getParams (j : Json) : Json := (getMember j "params").getD Json.null

/-- Outcome of running a registered native callback
(`WebView::CallbackFn`, i.e. `std::function<Value(const ValueView&)>`).
The callback either returns a result value or throws; in either case it may
synchronously trigger teardown of the owning `WebView`, which sets the shared
`DeletionChecker::deleted` flag — `deletedDuringCallback` records whether the
flag, captured into `deletionChecker` before the call in
`WebView::invokeBinding`, reads true after the callback returns. -/
inductive CallbackOutcome where
  | success (result : Json) (deletedDuringCallback : Bool) : CallbackOutcome
  | failure (deletedDuringCallback : Bool) : CallbackOutcome

/-- A registered native callback (`WebView::CallbackFn`). -/
abbrev CallbackFn := Json → CallbackOutcome

/-- `bindings.find (name)` on the `std::unordered_map<std::string, CallbackFn>`. -/
def lookupBinding (bs : List (String × CallbackFn)) (name : String) :
    Option CallbackFn :=
  (bs.find? (fun b => b.1 == name)).map Prod.snd

/-- `bindings.erase (found)`: removes the entry under `name` (the map holds at
most one entry per key). -/
def eraseBinding (bs : List (String × CallbackFn)) (name : String) :
    List (String × CallbackFn) :=
  bs.filter (fun b => !(b.1 == name))

/-- `bindings[functionName] = fn` on the `std::unordered_map`: replaces an
existing entry under the key, otherwise inserts a new one. -/
def insertBinding (bs : List (String × CallbackFn)) (name : String)
    (fn : CallbackFn) : List (String × CallbackFn) :=
  if (bs.find? (fun b => b.1 == name)).isSome then
    bs.map (fun b => if b.1 == name then (name, fn) else b)
  else
    bs ++ [(name, fn)]

/-- `"window._fnBindings[" + std::to_string (callbackID) + "]"` from
`WebView::invokeBinding`. -/
def callbackItem (callbackID : Int) : String :=
  "window._fnBindings[" ++ toString callbackID ++ "]"

/-- The script evaluated on the success path of `WebView::invokeBinding`:
`callbackItem + ".resolve(" + choc::json::toString (result) + "); delete " + callbackItem + ";"`. -/
def resolveScript (callbackID : Int) (result : Json) : String :=
  callbackItem callbackID ++ ".resolve(" ++ jsonToString result ++ "); delete "
    ++ callbackItem callbackID ++ ";"

/-- The script evaluated on the failure path of `WebView::invokeBinding`:
`callbackItem + ".reject(); delete " + callbackItem + ";"` — `reject` is
called with no arguments. -/
def rejectScript (callbackID : Int) : String :=
  callbackItem callbackID ++ ".reject(); delete " ++ callbackItem callbackID ++ ";"

/-- Observable outcome of one `WebView::invokeBinding (msg)` call:
which native callback was invoked (with which argument view), and which
scripts were submitted back into the page via `evaluateJavascript`. -/
structure InvokeResult where
  callbackCall : Option (String × Json)
  scripts : List String

/-- `WebView::invokeBinding` after `choc::json::parse` (`parsed = none` models
a parse failure, i.e. `choc::json::parse` threw and the outer catch swallowed
it).  Faithful to the source: `json["fn"].getString()` may throw (caught by
the outer catch); `if (callbackID == 0 || b == bindings.end()) return;`; the
native callback runs inside the inner try; on normal completion the shared
deleted flag (captured before the call) is consulted and, when set, the
resolve script is suppressed; on a throw the reject script is evaluated
without consulting the flag. -/
def invokeBindingParsed (bindings : List (String × CallbackFn))
    (parsed : Option Json) : InvokeResult :=
  match parsed with
  | none => { callbackCall := none, scripts := [] }
  | some json =>
    match getMemberString json "fn" with
    | none => { callbackCall := none, scripts := [] }
    | some fn =>
      match lookupBinding bindings fn with
      | none => { callbackCall := none, scripts := [] }
      | some cb =>
        let callbackID := getMemberIntOrDefault json "id" 0
        if callbackID = 0 then { callbackCall := none, scripts := [] }
        else
          match cb (getParams json) with
          | CallbackOutcome.success result deleted =>
            if deleted then { callbackCall := some (fn, getParams json), scripts := [] }
            else { callbackCall := some (fn, getParams json)
                 , scripts := [resolveScript callbackID result] }
          | CallbackOutcome.failure _ =>
            { callbackCall := some (fn, getParams json)
            , scripts := [rejectScript callbackID] }

/-- `WebView::invokeBinding (msg)`: parse the raw message (the parser is a
parameter, since `choc::json::parse` is outside `src/`), then run the
correlation protocol. -/
def invokeBinding (parse : String → Option Json)
    (bindings : List (String × CallbackFn)) (msg : String) : InvokeResult :=
  invokeBindingParsed bindings (parse msg)

/-! ## The WebView object and its operations -/

/-- `Pimpl::postMessageFn` on Linux and macOS. -/
def webkitPostMessageFn : String :=
  "window.webkit.messageHandlers.external.postMessage"

/-- `Pimpl::postMessageFn` on Windows. -/
def windowsPostMessageFn : String := "window.chrome.webview.postMessage"

/-- The script injected by `WebView::bind`: the `scriptTemplate` raw string
literal with `FUNCTION_NAME` replaced by the bound name (it occurs twice) and
`INVOKE_BINDING` replaced by `Pimpl::postMessageFn`, exactly as
`choc::text::replace (scriptTemplate, "FUNCTION_NAME", functionName,
"INVOKE_BINDING", Pimpl::postMessageFn)` produces.  `\x7b`/`\x7d` are literal
braces and `\x27` a literal apostrophe. -/
def bindScript (postMessageFn : String) (functionName : String) : String :=
  "(function() \x7b\n"
    ++ "const fnBinding = window._fnBindings = (window._fnBindings || \x7b messageID: 1 \x7d);\n"
    ++ "\n"
    ++ "window[\"" ++ functionName ++ "\"] = function()\n"
    ++ "\x7b\n"
    ++ "  const messageID = ++fnBinding.messageID;\n"
    ++ "  const promise = new Promise((resolve, reject) => \x7b fnBinding[messageID] = \x7b resolve, reject \x7d; \x7d);\n"
    ++ "\n"
    ++ "  const args = JSON.stringify (\x7b id: messageID,\n"
    ++ "                                 fn: \"" ++ functionName ++ "\",\n"
    ++ "                                 params: Array.prototype.slice.call (arguments)\n"
    ++ "                               \x7d,\n"
    ++ "                               (key, value) => typeof value === \x27bigint\x27 ? value.toString() : value);\n"
    ++ "  " ++ postMessageFn ++ " (args);\n"
    ++ "  return promise;\n"
    ++ "\x7d\n"
    ++ "\x7d)()"

/-- The script evaluated by `WebView::unbind`:
`"delete window[\"" + functionName + "\"];"`. -/
def deleteWindowScript (functionName : String) : String :=
  "delete window[\"" ++ functionName ++ "\"];"

/-- A call made by the `WebView` into its engine adapter (`Pimpl`). -/
inductive EngineEffect where
  | evalScript (script : String) : EngineEffect
  | addInit (script : String) : EngineEffect
  | navigateTo (url : String) : EngineEffect
  | loadHTML (html : String) : EngineEffect

/-- The state of a `choc::ui::WebView` object: whether `pimpl != nullptr`
(i.e. `loadedOK()`), the binding registry
(`std::unordered_map<std::string, CallbackFn> bindings`), the adapter's
compile-time `postMessageFn` constant and `defaultURI`, and the chronological
log of calls made into the engine adapter.  The engine-adapter operations for
the loaded case follow the Linux (WebKitGTK) adapter, where submission always
succeeds; the `pimpl == nullptr` paths are common to all three platforms. -/
structure WebViewState where
  loaded : Bool
  postMessageFn : String
  defaultURI : String
  bindings : List (String × CallbackFn)
  effects : List EngineEffect

/-- `WebView::loadedOK()`: `pimpl != nullptr`. -/
def loadedOK (s : WebViewState) : Bool := s.loaded

/-- `WebView::evaluateJavascript`:
`pimpl != nullptr && pimpl->evaluateJavascript (script, ...)`; the Linux
adapter always submits and returns true.  Completion delivery happens later at
the engine (see the adapter completion functions below). -/
def evaluateJavascript (s : WebViewState) (script : String) :
    Bool × WebViewState :=
  if s.loaded then
    (true, { s with effects := s.effects ++ [EngineEffect.evalScript script] })
  else (false, s)

/-- `WebView::navigate`: `pimpl != nullptr && pimpl->navigate (url)`; the
adapter maps an empty URL to `defaultURI`. -/
def navigate (s : WebViewState) (url : String) : Bool × WebViewState :=
  if s.loaded then
    (true, { s with effects := s.effects
               ++ [EngineEffect.navigateTo (if url = "" then s.defaultURI else url)] })
  else (false, s)

/-- `WebView::setHTML`: `pimpl != nullptr && pimpl->setHTML (html)`. -/
def setHTML (s : WebViewState) (html : String) : Bool × WebViewState :=
  if s.loaded then
    (true, { s with effects := s.effects ++ [EngineEffect.loadHTML html] })
  else (false, s)

/-- `WebView::addInitScript`: `pimpl != nullptr && pimpl->addInitScript (script)`;
on the Linux adapter the user-content manager is non-null whenever the view
loaded, so the call succeeds. -/
def addInitScript (s : WebViewState) (script : String) : Bool × WebViewState :=
  if s.loaded then
    (true, { s with effects := s.effects ++ [EngineEffect.addInit script] })
  else (false, s)

/-- `WebView::bind (functionName, fn)`: fails if `pimpl == nullptr`; otherwise
injects the shim via `addInitScript` and, only if that succeeded, evaluates it
in the current page too; only when both succeed is the registry entry
installed (replacing any previous entry under the name). -/
def bind (s : WebViewState) (functionName : String) (fn : CallbackFn) :
    Bool × WebViewState :=
  if s.loaded then
    let script := bindScript s.postMessageFn functionName
    match addInitScript s script with
    | (false, s1) => (false, s1)
    | (true, s1) =>
      match evaluateJavascript s1 script with
      | (false, s2) => (false, s2)
      | (true, s2) =>
        (true, { s2 with bindings := insertBinding s2.bindings functionName fn })
  else (false, s)

/-- `WebView::unbind (functionName)`: if an entry exists, evaluate the
window-deletion script, erase the entry and return true; otherwise return
false. -/
def unbind (s : WebViewState) (functionName : String) : Bool × WebViewState :=
  match lookupBinding s.bindings functionName with
  | some _ =>
    let s1 := (evaluateJavascript s (deleteWindowScript functionName)).2
    (true, { s1 with bindings := eraseBinding s1.bindings functionName })
  | none => (false, s)

/-- The `WebView (const Options&)` constructor: builds the `Pimpl` (whether
the engine handshake succeeded is `engineLoadedOK`; on failure `pimpl` is
reset to null), then pre-registers the three key-event bindings via `bind`.
The platform callbacks forward to the adapter and return the void value. -/
def mkWebView (postFn : String) (defaultURI : String)
    (engineLoadedOK : Bool) : WebViewState :=
  let s0 : WebViewState :=
    { loaded := engineLoadedOK, postMessageFn := postFn,
      defaultURI := defaultURI, bindings := [], effects := [] }
  let s1 := (bind s0 "juce_enableKeyEvents"
              (fun _ => CallbackOutcome.success Json.null false)).2
  let s2 := (bind s1 "juce_onKeyDown"
              (fun _ => CallbackOutcome.success Json.null false)).2
  (bind s2 "juce_onKeyUp" (fun _ => CallbackOutcome.success Json.null false)).2

/-- The states a `choc::ui::WebView` can be in: freshly constructed, or the
result of one of the public operations on a reachable state.
(`invokeBinding` does not modify the registry and is modelled separately.) -/
inductive Reachable : WebViewState → Prop where
  | construct (postFn defaultURI : String) (engineLoadedOK : Bool) :
      Reachable (mkWebView postFn defaultURI engineLoadedOK)
  | navigateStep (s : WebViewState) (url : String) :
      Reachable s → Reachable (navigate s url).2
  | setHTMLStep (s : WebViewState) (html : String) :
      Reachable s → Reachable (setHTML s html).2
  | addInitScriptStep (s : WebViewState) (script : String) :
      Reachable s → Reachable (addInitScript s script).2
  | evaluateJavascriptStep (s : WebViewState) (script : String) :
      Reachable s → Reachable (evaluateJavascript s script).2
  | bindStep (s : WebViewState) (name : String) (fn : CallbackFn) :
      Reachable s → Reachable (bind s name fn).2
  | unbindStep (s : WebViewState) (name : String) :
      Reachable s → Reachable (unbind s name).2

/-! ## The injected JS shim (`scriptTemplate` in `WebView::bind`)

The page-side semantics of the script injected per bound name: the
`window._fnBindings` registry object holds a `messageID` counter and the
pending `{resolve, reject}` pairs keyed by message id. -/

/-- The page-global `window._fnBindings` object. -/
structure FnBindingsState where
  messageID : Nat
  pending : List Nat

/-- `window._fnBindings = (window._fnBindings || { messageID: 1 })`: in a
fresh page the registry starts with `messageID` 1 and no pending entries. -/
def initialFnBindings : FnBindingsState := { messageID := 1, pending := [] }

/-- One invocation of a bound `window[name]` function, from the shim body:
`const messageID = ++fnBinding.messageID;` (pre-increment: the stored counter
is bumped first and the new value used), a `{resolve, reject}` pair is stored
under the new id, and `{ id: messageID, fn: name, params: arguments }` is
serialised and handed to the native message-send primitive.  Returns the new
registry state and the message object sent. -/
def shimCall (s : FnBindingsState) (fn : String) (params : List Json) :
    FnBindingsState × Json :=
  let messageID := s.messageID + 1
  ({ messageID := messageID, pending := s.pending ++ [messageID] },
   Json.obj [("id", Json.int (Int.ofNat messageID)), ("fn", Json.str fn),
             ("params", Json.arr params)])

/-- The registry state after `n` invocations of bound functions in a fresh
page. -/
def shimStateAfter (fn : String) (params : List Json) : Nat → FnBindingsState
  | 0 => initialFnBindings
  | n + 1 => (shimCall (shimStateAfter fn params n) fn params).1

/-! ## Engine-adapter completion paths for `evaluateJavascript`

Each function below embeds one adapter's completion path and returns the list
of invocations `(errorMessage, value)` it makes on the user-supplied
completion handler.  The ambient value of the shared
`DeletionChecker::deleted` flag at completion time is passed in as `deleted`;
`parseValue` stands for `choc::json::parseValue` (in `text/choc_JSON.h`,
outside `src/`; `none` models a parse exception) and `parseErrorMessage` for
the `e.what()` text of that exception. -/

/-- The result state of
`webkit_web_view_run_javascript_finish` on Linux: the `GError` message if one
was reported, and — when the result object was obtained — whether a JS value
was present and what `jsc_value_to_json` returned for it. -/
structure LinuxJSCResult where
  error : Option String
  jsValue : Option (Option String)

/-- `Pimpl::evaluationCompleteCallback` (Linux adapter): decodes the engine
result into `(errorMessage, value)` and invokes the completion handler.
`finishResult = none` models `run_javascript_finish` returning null. -/
def linuxEvaluationCompleteCallback (parseValue : String → Option Json)
    (parseErrorMessage : String) (deleted : Bool)
    (finishResult : Option LinuxJSCResult) : List (String × Json) :=
  match finishResult with
  | none => [("Failed to fetch result", Json.null)]
  | some r =>
    let errorMessage := match r.error with | some e => e | none => ""
    match r.jsValue with
    | none =>
      [((if errorMessage = "" then "Failed to fetch result" else errorMessage),
        Json.null)]
    | some jsonText =>
      match jsonText with
      | none => [(errorMessage, Json.null)]
      | some json =>
        if json = "" then [(errorMessage, Json.null)]
        else
          match parseValue json with
          | some v => [(errorMessage, v)]
          | none =>
            [((if errorMessage = "" then parseErrorMessage else errorMessage),
              Json.null)]

/-- `Pimpl::ExecuteScriptCompletedCallback::Invoke` (Windows adapter):
`hrErrorMessage` is `getMessageFromHRESULT (hr)` (empty for `S_OK`);
`resultJSON = none` models a null `LPCWSTR` result.  A parse exception
overwrites the error message with `e.what()`. -/
def windowsExecuteScriptCompletedInvoke (parseValue : String → Option Json)
    (hrErrorMessage parseErrorMessage : String) (deleted : Bool)
    (resultJSON : Option String) : List (String × Json) :=
  match resultJSON with
  | none => [(hrErrorMessage, Json.null)]
  | some json =>
    if json = "" then [(hrErrorMessage, Json.null)]
    else
      match parseValue json with
      | some v => [(hrErrorMessage, v)]
      | none => [(parseErrorMessage, Json.null)]

/-- The completion block passed to `evaluateJavaScript:completionHandler:`
(macOS adapter): `nsErrorMessage` is `getMessageFromNSError (error)` (empty
when no error), `resultJSON` is `convertNSObjectToJSON (result)` (empty when
the result was nil or not serialisable). -/
def macEvaluationCompletionBlock (parseValue : String → Option Json)
    (nsErrorMessage parseErrorMessage : String) (deleted : Bool)
    (resultJSON : String) : List (String × Json) :=
  if resultJSON = "" then [(nsErrorMessage, Json.null)]
  else
    match parseValue resultJSON with
    | some v => [(nsErrorMessage, v)]
    | none => [(parseErrorMessage, Json.null)]

/-! ## The resource-fetch bridge -/

/-- `WebView::Options::Resource`: raw bytes plus MIME type. -/
structure Resource where
  data : List Nat
  mimeType : String

/-- Outcome of calling the application-supplied `fetchResource` resolver for
one path: a resource, `std::nullopt`, or a thrown exception. -/
inductive FetchOutcome where
  | found (r : Resource) : FetchOutcome
  | notFound : FetchOutcome
  | threw : FetchOutcome

/-- The answer the Linux adapter's `onResourceRequested` lambda gives the
engine: a synthetic response (status, optional content type set via
`webkit_uri_scheme_response_set_content_type`, appended soup headers, body
stream), or `webkit_uri_scheme_request_finish_error`. -/
inductive LinuxResourceAnswer where
  | response (status : Nat) (contentType : Option String)
      (headers : List (String × String)) (body : List Nat) : LinuxResourceAnswer
  | finishError (message : String) : LinuxResourceAnswer

/-- The `onResourceRequested` lambda registered with
`webkit_web_context_register_uri_scheme` (Linux adapter). -/
def linuxOnResourceRequested (fetchResource : String → FetchOutcome)
    (path : String) : LinuxResourceAnswer :=
  match fetchResource path with
  | FetchOutcome.found r =>
    LinuxResourceAnswer.response 200 (some r.mimeType)
      [("Cache-Control", "no-store"), ("Access-Control-Allow-Origin", "*")]
      r.data
  | FetchOutcome.notFound => LinuxResourceAnswer.response 404 none [] []
  | FetchOutcome.threw => LinuxResourceAnswer.finishError "Something went wrong"

/-- The per-instance data the Windows `Pimpl::onResourceRequested` uses:
`defaultURI`, the internal `setHTMLURI` (`defaultURI + "getHTMLInternal"`),
the page HTML stored by `setHTML`, the resolver, and the configured custom
user agent. -/
structure WinResourceEnv where
  defaultURI : String
  setHTMLURI : String
  pageHTML : Resource
  fetchResource : String → FetchOutcome
  customUserAgent : String

/-- `Pimpl::fetchResourceOrPageHTML` (Windows adapter): the internal
`setHTMLURI` is served from the stored page HTML; any other URI is stripped
to its path (`uri.substr (defaultURI.size() - 1)`) and handed to the
resolver. -/
def fetchResourceOrPageHTML (env : WinResourceEnv) (uri : String) :
    FetchOutcome :=
  if uri = env.setHTMLURI then FetchOutcome.found env.pageHTML
  else env.fetchResource (uri.drop (env.defaultURI.length - 1))

/-- The header lines built by the Windows `onResourceRequested` for a found
resource (joined with newlines for `CreateWebResourceResponse`). -/
def winResponseHeaders (env : WinResourceEnv) (r : Resource) : List String :=
  ["Content-Type: " ++ r.mimeType, "Cache-Control: no-store",
   "Access-Control-Allow-Origin: *"]
    ++ (if env.customUserAgent = "" then []
        else ["User-Agent: " ++ env.customUserAgent])

/-- The answer `Pimpl::onResourceRequested` (Windows adapter) produces:
a `CreateWebResourceResponse` put on the event args (status, reason phrase,
header lines, optional body stream — the 404 passes a null stream), or
`E_FAIL` when anything threw.  The engine-API failure returns (null stream
from `SHCreateMemStream`, failing HRESULTs) are not modelled. -/
inductive WinResourceAnswer where
  | response (status : Nat) (reason : String) (headers : List String)
      (body : Option (List Nat)) : WinResourceAnswer
  | efail : WinResourceAnswer

/-- `Pimpl::onResourceRequested` (Windows adapter). -/
def winOnResourceRequested (env : WinResourceEnv) (uri : String) :
    WinResourceAnswer :=
  match fetchResourceOrPageHTML env uri with
  | FetchOutcome.found r =>
    WinResourceAnswer.response 200 "OK" (winResponseHeaders env r) (some r.data)
  | FetchOutcome.notFound => WinResourceAnswer.response 404 "Not Found" [] none
  | FetchOutcome.threw => WinResourceAnswer.efail

/-! ## The Windows web-message handler -/

/-- One step taken by the Windows
`EventHandler::Invoke (ICoreWebView2*, ICoreWebView2WebMessageReceivedEventArgs*)`
handler. -/
inductive WinHandlerStep where
  | invokeBindingStep (message : String) (result : InvokeResult) : WinHandlerStep
  | postWebMessageAsString (message : String) : WinHandlerStep

/-- The Windows `WebMessageReceived` handler body for a (non-null) sender and
a string message obtained by `TryGetWebMessageAsString`: forward the UTF-8
conversion of the message to `WebView::invokeBinding`, then unconditionally
post the same message string back into the page. -/
def winWebMessageReceived (parse : String → Option Json)
    (bindings : List (String × CallbackFn)) (message : String) :
    List WinHandlerStep :=
  [WinHandlerStep.invokeBindingStep message (invokeBinding parse bindings message),
   WinHandlerStep.postWebMessageAsString message]

/-! ## Helper lemmas about the WebView state machine -/

theorem navigate_not_loaded (s : WebViewState) (h : s.loaded = false)
    (url : String) : navigate s url = (false, s) := by
  simp [navigate, h]

theorem setHTML_not_loaded (s : WebViewState) (h : s.loaded = false)
    (html : String) : setHTML s html = (false, s) := by
  simp [setHTML, h]

theorem addInitScript_not_loaded (s : WebViewState) (h : s.loaded = false)
    (script : String) : addInitScript s script = (false, s) := by
  simp [addInitScript, h]

theorem evaluateJavascript_not_loaded (s : WebViewState) (h : s.loaded = false)
    (script : String) : evaluateJavascript s script = (false, s) := by
  simp [evaluateJavascript, h]

theorem bind_not_loaded (s : WebViewState) (h : s.loaded = false)
    (name : String) (fn : CallbackFn) : bind s name fn = (false, s) := by
  simp [bind, h]

theorem unbind_empty (s : WebViewState) (h : s.bindings = [])
    (name : String) : unbind s name = (false, s) := by
  simp [unbind, h, lookupBinding]

theorem navigate_preserves (s : WebViewState) (url : String) :
    ((navigate s url).2).loaded = s.loaded
      ∧ ((navigate s url).2).bindings = s.bindings := by
  unfold navigate; split <;> exact ⟨rfl, rfl⟩

theorem setHTML_preserves (s : WebViewState) (html : String) :
    ((setHTML s html).2).loaded = s.loaded
      ∧ ((setHTML s html).2).bindings = s.bindings := by
  unfold setHTML; split <;> exact ⟨rfl, rfl⟩

theorem addInitScript_preserves (s : WebViewState) (script : String) :
    ((addInitScript s script).2).loaded = s.loaded
      ∧ ((addInitScript s script).2).bindings = s.bindings := by
  unfold addInitScript; split <;> exact ⟨rfl, rfl⟩

theorem evaluateJavascript_preserves (s : WebViewState) (script : String) :
    ((evaluateJavascript s script).2).loaded = s.loaded
      ∧ ((evaluateJavascript s script).2).bindings = s.bindings := by
  unfold evaluateJavascript; split <;> exact ⟨rfl, rfl⟩

theorem bind_preserves_loaded (s : WebViewState) (name : String)
    (fn : CallbackFn) : ((bind s name fn).2).loaded = s.loaded := by
  by_cases h : s.loaded = true
  · simp [bind, addInitScript, evaluateJavascript, h]
  · have h' : s.loaded = false := by revert h; cases s.loaded <;> simp
    simp [bind, h']

theorem unbind_preserves_loaded (s : WebViewState) (name : String) :
    ((unbind s name).2).loaded = s.loaded := by
  unfold unbind
  cases h : lookupBinding s.bindings name
  · rfl
  · show ((evaluateJavascript s (deleteWindowScript name)).2).loaded = s.loaded
    exact (evaluateJavascript_preserves s (deleteWindowScript name)).1

theorem mkWebView_loaded (postFn defaultURI : String) (b : Bool) :
    (mkWebView postFn defaultURI b).loaded = b := by
  cases b <;> rfl

/-- The invariant behind claim C7: a `WebView` whose initialisation failed
keeps an empty binding registry forever (the constructor's three `bind`
calls fail, and no later operation can install an entry). -/
theorem reachable_unloaded_bindings (s : WebViewState) (h : Reachable s) :
    s.loaded = false → s.bindings = [] := by
  induction h with
  | construct postFn defaultURI ok =>
    intro hl
    cases ok with
    | false => rfl
    | true => rw [mkWebView_loaded] at hl; exact absurd hl (by simp)
  | navigateStep s url _ ih =>
    intro hl
    rw [(navigate_preserves s url).1] at hl
    rw [(navigate_preserves s url).2]; exact ih hl
  | setHTMLStep s html _ ih =>
    intro hl
    rw [(setHTML_preserves s html).1] at hl
    rw [(setHTML_preserves s html).2]; exact ih hl
  | addInitScriptStep s script _ ih =>
    intro hl
    rw [(addInitScript_preserves s script).1] at hl
    rw [(addInitScript_preserves s script).2]; exact ih hl
  | evaluateJavascriptStep s script _ ih =>
    intro hl
    rw [(evaluateJavascript_preserves s script).1] at hl
    rw [(evaluateJavascript_preserves s script).2]; exact ih hl
  | bindStep s name fn _ ih =>
    intro hl
    rw [bind_preserves_loaded s name fn] at hl
    rw [bind_not_loaded s hl name fn]; exact ih hl
  | unbindStep s name _ ih =>
    intro hl
    rw [unbind_preserves_loaded s name] at hl
    rw [unbind_empty s (ih hl) name]; exact ih hl

theorem lookupBinding_eraseBinding (bs : List (String × CallbackFn))
    (name : String) : lookupBinding (eraseBinding bs name) name = none := by
  induction bs with
  | nil => rfl
  | cons b rest ih =>
    by_cases hb : (b.1 == name) = true
    · simpa [eraseBinding, hb] using ih
    · have hb' : (b.1 == name) = false := by revert hb; cases b.1 == name <;> simp
      simp only [eraseBinding, List.filter_cons, hb', Bool.not_false, if_true,
        lookupBinding, List.find?_cons] at *
      simp [hb', ih]

/-! ## Claim theorems -/

/-- C7: on a `WebView` whose initialization failed (`loadedOK()` false),
`navigate`, `setHTML`, `evaluateJavascript`, `addInitScript`, `bind` and
`unbind` all return false and leave the state untouched: no engine call is
made and the binding registry is unchanged. -/
theorem C7_failed_webview_operations_inert (s : WebViewState)
    (hre : Reachable s) (hl : loadedOK s = false) :
    (∀ url, navigate s url = (false, s)) ∧
    (∀ html, setHTML s html = (false, s)) ∧
    (∀ script, evaluateJavascript s script = (false, s)) ∧
    (∀ script, addInitScript s script = (false, s)) ∧
    (∀ name fn, bind s name fn = (false, s)) ∧
    (∀ name, unbind s name = (false, s)) := by
  have hl' : s.loaded = false := hl
  have hb : s.bindings = [] := reachable_unloaded_bindings s hre hl'
  exact ⟨fun url => navigate_not_loaded s hl' url,
         fun html => setHTML_not_loaded s hl' html,
         fun script => evaluateJavascript_not_loaded s hl' script,
         fun script => addInitScript_not_loaded s hl' script,
         fun name fn => bind_not_loaded s hl' name fn,
         fun name => unbind_empty s hb name⟩

/-- A WebView whose engine handshake failed, for the C7 witness. -/
def failedWebView : WebViewState :=
  mkWebView webkitPostMessageFn "choc://choc.choc/" false

/-- Witness for C7 at a concrete failed WebView. -/
theorem C7_witness :
    navigate failedWebView "https://example.com" = (false, failedWebView) ∧
    unbind failedWebView "juce_onKeyUp" = (false, failedWebView) :=
  have h := C7_failed_webview_operations_inert failedWebView
    (Reachable.construct webkitPostMessageFn "choc://choc.choc/" false) rfl
  ⟨h.1 "https://example.com", h.2.2.2.2.2 "juce_onKeyUp"⟩

/-- C8: `unbind` on a currently bound name evaluates the script deleting
`window[name]`, removes the registry entry and returns true; on an unbound
name it returns false and changes nothing — in particular a second `unbind`
of the same name returns false and leaves the state as it was. -/
theorem C8_unbind_semantics :
    (∀ (s : WebViewState) (name : String) (fn : CallbackFn),
        Reachable s → lookupBinding s.bindings name = some fn →
        (unbind s name).1 = true ∧
        ((unbind s name).2).bindings = eraseBinding s.bindings name ∧
        ((unbind s name).2).effects
          = s.effects ++ [EngineEffect.evalScript (deleteWindowScript name)] ∧
        unbind (unbind s name).2 name = (false, (unbind s name).2)) ∧
    (∀ (s : WebViewState) (name : String),
        lookupBinding s.bindings name = none → unbind s name = (false, s)) := by
  constructor
  · intro s name fn hre hlook
    have hloaded : s.loaded = true := by
      cases hl : s.loaded with
      | true => rfl
      | false =>
        rw [reachable_unloaded_bindings s hre hl] at hlook
        simp [lookupBinding] at hlook
    have hu : unbind s name
        = (true, { s with
             bindings := eraseBinding s.bindings name,
             effects := s.effects
               ++ [EngineEffect.evalScript (deleteWindowScript name)] }) := by
      simp [unbind, hlook, evaluateJavascript, hloaded]
    refine ⟨by rw [hu], by rw [hu], by rw [hu], ?_⟩
    rw [hu]
    simp [unbind, lookupBinding_eraseBinding]
  · intro s name hnone
    simp [unbind, hnone]

/-- A concrete bound callback for the C8 witness. -/
def fooCallback : CallbackFn := fun _ => CallbackOutcome.success Json.null false

/-- A successfully loaded WebView with an extra binding "foo", for the C8
witness. -/
def boundWebView : WebViewState :=
  (bind (mkWebView webkitPostMessageFn "choc://choc.choc/" true) "foo"
    fooCallback).2

/-- Witness for C8: unbinding "foo" once succeeds, a second unbind of the
same name reports false. -/
theorem C8_witness :
    (unbind boundWebView "foo").1 = true ∧
    (unbind (unbind boundWebView "foo").2 "foo").1 = false := by
  have h := C8_unbind_semantics.1 boundWebView "foo" fooCallback
    (Reachable.bindStep _ "foo" fooCallback
      (Reachable.construct webkitPostMessageFn "choc://choc.choc/" true)) rfl
  exact ⟨h.1, by rw [h.2.2.2]⟩

/-- C9: the constructor of a successfully initialised `WebView` pre-registers
exactly the three key-event bindings — "juce_enableKeyEvents",
"juce_onKeyDown" and "juce_onKeyUp" — before any client `bind` call, and
injects their shims as init scripts (hence into every page) as well as into
the current page. -/
theorem C9_constructor_preregisters_key_bindings (postFn defaultURI : String) :
    (mkWebView postFn defaultURI true).loaded = true ∧
    ((mkWebView postFn defaultURI true).bindings.map Prod.fst
      = ["juce_enableKeyEvents", "juce_onKeyDown", "juce_onKeyUp"]) ∧
    (mkWebView postFn defaultURI true).effects
      = [EngineEffect.addInit (bindScript postFn "juce_enableKeyEvents"),
         EngineEffect.evalScript (bindScript postFn "juce_enableKeyEvents"),
         EngineEffect.addInit (bindScript postFn "juce_onKeyDown"),
         EngineEffect.evalScript (bindScript postFn "juce_onKeyDown"),
         EngineEffect.addInit (bindScript postFn "juce_onKeyUp"),
         EngineEffect.evalScript (bindScript postFn "juce_onKeyUp")] :=
  ⟨rfl, rfl, rfl⟩

/-- C3: an inbound message that fails to parse, or whose `id` is 0 (or
absent, defaulting to 0), or whose `fn` does not name a registered binding,
is dropped silently: no native callback is invoked and no script is evaluated
back into the page. -/
theorem C3_malformed_message_silent_drop (parse : String → Option Json)
    (bindings : List (String × CallbackFn)) (msg : String)
    (h : parse msg = none
      ∨ (∃ j, parse msg = some j ∧ getMemberIntOrDefault j "id" 0 = 0)
      ∨ (∃ j, parse msg = some j ∧
           ∀ fn, getMemberString j "fn" = some fn →
             lookupBinding bindings fn = none)) :
    invokeBinding parse bindings msg = { callbackCall := none, scripts := [] } := by
  rcases h with hp | ⟨j, hp, hid⟩ | ⟨j, hp, hfn⟩
  · simp [invokeBinding, invokeBindingParsed, hp]
  · cases hf : getMemberString j "fn" with
    | none => simp [invokeBinding, invokeBindingParsed, hp, hf]
    | some fn =>
      cases hc : lookupBinding bindings fn with
      | none => simp [invokeBinding, invokeBindingParsed, hp, hf, hc]
      | some cb => simp [invokeBinding, invokeBindingParsed, hp, hf, hc, hid]
  · cases hf : getMemberString j "fn" with
    | none => simp [invokeBinding, invokeBindingParsed, hp, hf]
    | some fn => simp [invokeBinding, invokeBindingParsed, hp, hf, hfn fn hf]

/-- Witness for C3: an unparsable message is dropped with no effect. -/
theorem C3_witness :
    invokeBinding (fun _ => none) [] "this is not json"
      = { callbackCall := none, scripts := [] } :=
  C3_malformed_message_silent_drop (fun _ => none) [] "this is not json"
    (Or.inl rfl)

/-- A callback that completes normally but synchronously tears the owning
WebView down, so the captured deleted flag reads true afterwards. -/
def teardownCallback : CallbackFn :=
  fun _ => CallbackOutcome.success Json.null true

/-- A well-formed inbound message for binding "f" with id 5. -/
def messageF5 : Json :=
  Json.obj [("id", Json.int 5), ("fn", Json.str "f"), ("params", Json.arr [])]

/-- Counterexample to C2 as stated: a message with a registered `fn` and
nonzero `id` whose callback completes normally, yet zero scripts (rather than
exactly one resolve-or-reject) are evaluated back into the page, because the
shared deleted flag was set during the callback and `invokeBinding` then
returns before resolving. -/
theorem C2_counterexample :
    getMemberString messageF5 "fn" = some "f" ∧
    (lookupBinding [("f", teardownCallback)] "f").isSome = true ∧
    getMemberIntOrDefault messageF5 "id" 0 = 5 ∧
    ((5 : Int) = 0 → False) ∧
    (invokeBinding (fun _ => some messageF5) [("f", teardownCallback)]
        "m").callbackCall = some ("f", Json.arr []) ∧
    (invokeBinding (fun _ => some messageF5) [("f", teardownCallback)]
        "m").scripts = [] :=
  ⟨rfl, rfl, rfl, by decide, rfl, rfl⟩

/-- C2 (amended): for every message that parses, names a registered binding
and carries a nonzero id, `invokeBinding` invokes the registered callback
synchronously with the message's `params`, and afterwards evaluates exactly
one script back into the page — resolving `window._fnBindings[id]` with the
JSON serialisation of the result and deleting the entry on normal completion,
or rejecting-and-deleting on a throw — unless the WebView was torn down
during the callback (shared deleted flag observed true), in which case no
script is evaluated. -/
theorem C2_valid_message_one_resolve_or_reject (parse : String → Option Json)
    (msg : String) (j : Json) (bindings : List (String × CallbackFn))
    (fn : String) (cb : CallbackFn)
    (hp : parse msg = some j) (hfn : getMemberString j "fn" = some fn)
    (hcb : lookupBinding bindings fn = some cb)
    (hid : getMemberIntOrDefault j "id" 0 ≠ 0) :
    (invokeBinding parse bindings msg).callbackCall = some (fn, getParams j) ∧
    (∀ result, cb (getParams j) = CallbackOutcome.success result false →
        (invokeBinding parse bindings msg).scripts
          = [resolveScript (getMemberIntOrDefault j "id" 0) result]) ∧
    (∀ result, cb (getParams j) = CallbackOutcome.success result true →
        (invokeBinding parse bindings msg).scripts = []) ∧
    (∀ d, cb (getParams j) = CallbackOutcome.failure d →
        (invokeBinding parse bindings msg).scripts
          = [rejectScript (getMemberIntOrDefault j "id" 0)]) := by
  simp only [invokeBinding, hp, invokeBindingParsed, hfn, hcb, if_neg hid]
  refine ⟨?_, ?_, ?_, ?_⟩
  · cases hr : cb (getParams j) with
    | success result deleted => cases deleted <;> simp [hr]
    | failure d => simp [hr]
  · intro result hr; simp [hr]
  · intro result hr; simp [hr]
  · intro d hr; simp [hr]

/-- A callback returning the integer 3 without tearing anything down. -/
def succeedingCallback : CallbackFn :=
  fun _ => CallbackOutcome.success (Json.int 3) false

/-- Witness for the amended C2 on a concrete message and callback. -/
theorem C2_witness :
    (invokeBinding (fun _ => some messageF5) [("f", succeedingCallback)]
        "m").callbackCall = some ("f", Json.arr []) ∧
    (invokeBinding (fun _ => some messageF5) [("f", succeedingCallback)]
        "m").scripts = [resolveScript 5 (Json.int 3)] := by
  have h := C2_valid_message_one_resolve_or_reject (fun _ => some messageF5)
    "m" messageF5 [("f", succeedingCallback)] "f" succeedingCallback
    rfl rfl rfl (by decide)
  exact ⟨h.1, h.2.1 (Json.int 3) rfl⟩

/-- C4: when the registered callback for a well-formed message throws,
`invokeBinding` evaluates the script `window._fnBindings[id].reject(); delete
window._fnBindings[id];` — `reject()` carries no arguments and no failure
detail, and the registry entry is deleted (see `rejectScript`). -/
theorem C4_callback_throw_rejects_without_payload (parse : String → Option Json)
    (msg : String) (j : Json) (bindings : List (String × CallbackFn))
    (fn : String) (cb : CallbackFn) (d : Bool)
    (hp : parse msg = some j) (hfn : getMemberString j "fn" = some fn)
    (hcb : lookupBinding bindings fn = some cb)
    (hid : getMemberIntOrDefault j "id" 0 ≠ 0)
    (hthrow : cb (getParams j) = CallbackOutcome.failure d) :
    (invokeBinding parse bindings msg).scripts
      = [rejectScript (getMemberIntOrDefault j "id" 0)] := by
  simp only [invokeBinding, hp, invokeBindingParsed, hfn, hcb, if_neg hid,
    hthrow]

/-- A callback that throws. -/
def throwingCallback : CallbackFn := fun _ => CallbackOutcome.failure false

/-- A well-formed inbound message for binding "g" with id 7. -/
def messageG7 : Json :=
  Json.obj [("id", Json.int 7), ("fn", Json.str "g"),
            ("params", Json.arr [Json.int 1])]

/-- Witness for C4 on a concrete throwing callback. -/
theorem C4_witness :
    (invokeBinding (fun _ => some messageG7) [("g", throwingCallback)]
        "m").scripts = [rejectScript 7] :=
  C4_callback_throw_rejects_without_payload (fun _ => some messageG7) "m"
    messageG7 [("g", throwingCallback)] "g" throwingCallback false
    rfl rfl rfl (by decide) rfl

/-- Counterexample to C5 as stated: the very first invocation of a bound
function in a fresh page sends a message whose `id` is 2, not 1 — the stored
counter starts at 1 and the shim pre-increments it before use. -/
theorem C5_counterexample :
    getMember (shimCall initialFnBindings "juce_onKeyUp" []).2 "id"
      = some (Json.int 2) ∧
    some (Json.int 2) ≠ some (Json.int 1) :=
  ⟨rfl, by simp⟩

/-- C5 (amended): the shim's message ids are a strictly increasing per-page
sequence starting at 2: the stored counter is initialised to 1,
pre-incremented on every invocation, and the incremented value is sent as the
message's `id` — so after n invocations the counter reads n + 1, the first
invocation sends id 2, and each subsequent invocation sends the next
integer. -/
theorem C5_amended_ids_start_at_two (fn : String) (params : List Json) :
    initialFnBindings.messageID = 1 ∧
    (∀ s : FnBindingsState,
        getMember (shimCall s fn params).2 "id"
          = some (Json.int (Int.ofNat (s.messageID + 1))) ∧
        ((shimCall s fn params).1).messageID = s.messageID + 1) ∧
    (∀ n : Nat, (shimStateAfter fn params n).messageID = n + 1) ∧
    getMember (shimCall initialFnBindings fn params).2 "id"
      = some (Json.int 2) := by
  refine ⟨rfl, fun s => ⟨rfl, rfl⟩, ?_, rfl⟩
  intro n
  induction n with
  | zero => rfl
  | succ n ih => simp [shimStateAfter, shimCall, ih]

/-- C10: the Windows `WebMessageReceived` handler forwards every inbound
string message to `invokeBinding` and then unconditionally posts the very
same string back into the page via `PostWebMessageAsString`, whatever the
message contained and whatever `invokeBinding` did with it. -/
theorem C10_windows_echoes_every_message (parse : String → Option Json)
    (bindings : List (String × CallbackFn)) (message : String) :
    winWebMessageReceived parse bindings message
      = [WinHandlerStep.invokeBindingStep message
           (invokeBinding parse bindings message),
         WinHandlerStep.postWebMessageAsString message] ∧
    (winWebMessageReceived parse bindings message).filter
        (fun a => match a with
                  | WinHandlerStep.postWebMessageAsString _ => true
                  | _ => false)
      = [WinHandlerStep.postWebMessageAsString message] :=
  ⟨rfl, rfl⟩

/-- Counterexample to C1 as stated: with the shared `DeletionChecker` flag
already true at completion time, each engine adapter's completion path still
invokes the completion handler exactly as when the flag is false — no adapter
consults the flag, so the callback is not suppressed after teardown. -/
theorem C1_counterexample :
    linuxEvaluationCompleteCallback (fun _ => none) "parse error" true none
      = [("Failed to fetch result", Json.null)] ∧
    windowsExecuteScriptCompletedInvoke (fun _ => none) "" "parse error" true
        none
      = [("", Json.null)] ∧
    macEvaluationCompletionBlock (fun _ => none) "" "parse error" true ""
      = [("", Json.null)] :=
  ⟨rfl, rfl, rfl⟩

/-- C1 (amended): each engine adapter's completion path invokes the
completion handler exactly once per engine completion — but it does so
regardless of the shared `DeletionChecker` flag, which none of the three
completion paths consults (the deleted-flag suppression exists only in
`invokeBinding`'s resolve path). -/
theorem C1_amended_completion_fires_once_ignores_deleted
    (parseValue : String → Option Json) (em pe : String) (deleted : Bool)
    (lres : Option LinuxJSCResult) (wres : Option String) (mres : String) :
    (linuxEvaluationCompleteCallback parseValue pe deleted lres).length = 1 ∧
    (windowsExecuteScriptCompletedInvoke parseValue em pe deleted wres).length
      = 1 ∧
    (macEvaluationCompletionBlock parseValue em pe deleted mres).length = 1 ∧
    linuxEvaluationCompleteCallback parseValue pe deleted lres
      = linuxEvaluationCompleteCallback parseValue pe false lres ∧
    windowsExecuteScriptCompletedInvoke parseValue em pe deleted wres
      = windowsExecuteScriptCompletedInvoke parseValue em pe false wres ∧
    macEvaluationCompletionBlock parseValue em pe deleted mres
      = macEvaluationCompletionBlock parseValue em pe false mres := by
  refine ⟨?_, ?_, ?_, rfl, rfl, rfl⟩
  · cases lres with
    | none => rfl
    | some r =>
      obtain ⟨err, jsv⟩ := r
      cases jsv with
      | none => rfl
      | some jsonText =>
        cases jsonText with
        | none => rfl
        | some json =>
          simp only [linuxEvaluationCompleteCallback]
          split
          · rfl
          · cases parseValue json <;> rfl
  · cases wres with
    | none => rfl
    | some json =>
      simp only [windowsExecuteScriptCompletedInvoke]
      split
      · rfl
      · cases parseValue json <;> rfl
  · simp only [macEvaluationCompletionBlock]
    split
    · rfl
    · cases parseValue mres <;> rfl

/-- C6: with a resolver supplied, a resolved Resource is answered with status
200, the Resource's MIME type as content type, `Cache-Control: no-store` and
`Access-Control-Allow-Origin: *` headers and the Resource's bytes as body;
a missing resource is answered 404 with an empty body; a resolver exception
is converted into the engine's generic failure signalling and never
propagates — on both the Linux and the Windows adapter (the Windows part is
stated for requests other than the internal `setHTMLURI`). -/
theorem C6_resource_fetch_responses :
    (∀ (fetchResource : String → FetchOutcome) (path : String),
      (∀ r, fetchResource path = FetchOutcome.found r →
        linuxOnResourceRequested fetchResource path
          = LinuxResourceAnswer.response 200 (some r.mimeType)
              [("Cache-Control", "no-store"),
               ("Access-Control-Allow-Origin", "*")] r.data) ∧
      (fetchResource path = FetchOutcome.notFound →
        linuxOnResourceRequested fetchResource path
          = LinuxResourceAnswer.response 404 none [] []) ∧
      (fetchResource path = FetchOutcome.threw →
        linuxOnResourceRequested fetchResource path
          = LinuxResourceAnswer.finishError "Something went wrong")) ∧
    (∀ (env : WinResourceEnv) (uri : String), uri ≠ env.setHTMLURI →
      (∀ r, env.fetchResource (uri.drop (env.defaultURI.length - 1))
              = FetchOutcome.found r →
        winOnResourceRequested env uri
          = WinResourceAnswer.response 200 "OK" (winResponseHeaders env r)
              (some r.data) ∧
        ("Content-Type: " ++ r.mimeType) ∈ winResponseHeaders env r ∧
        "Cache-Control: no-store" ∈ winResponseHeaders env r ∧
        "Access-Control-Allow-Origin: *" ∈ winResponseHeaders env r) ∧
      (env.fetchResource (uri.drop (env.defaultURI.length - 1))
          = FetchOutcome.notFound →
        winOnResourceRequested env uri
          = WinResourceAnswer.response 404 "Not Found" [] none) ∧
      (env.fetchResource (uri.drop (env.defaultURI.length - 1))
          = FetchOutcome.threw →
        winOnResourceRequested env uri = WinResourceAnswer.efail)) := by
  constructor
  · intro fetchResource path
    refine ⟨fun r hr => ?_, fun hr => ?_, fun hr => ?_⟩ <;>
      simp [linuxOnResourceRequested, hr]
  · intro env uri hne
    have hfp : fetchResourceOrPageHTML env uri
        = env.fetchResource (uri.drop (env.defaultURI.length - 1)) := by
      simp [fetchResourceOrPageHTML, hne]
    refine ⟨fun r hr => ⟨?_, ?_, ?_, ?_⟩, fun hr => ?_, fun hr => ?_⟩
    · simp [winOnResourceRequested, hfp, hr]
    · simp [winResponseHeaders]
    · simp [winResponseHeaders]
    · simp [winResponseHeaders]
    · simp [winOnResourceRequested, hfp, hr]
    · simp [winOnResourceRequested, hfp, hr]

/-- A concrete resolver for the C6 witness: "/x" resolves to the bytes of
"hi" as text/plain, "/missing" resolves to nothing, anything else throws. -/
def demoResolver : String → FetchOutcome := fun path =>
  if path = "/x" then FetchOutcome.found { data := [104, 105], mimeType := "text/plain" }
  else if path = "/missing" then FetchOutcome.notFound
  else FetchOutcome.threw

/-- A Windows resource environment wired to `demoResolver`. -/
def demoWinEnv : WinResourceEnv :=
  { defaultURI := "https://choc.localhost/",
    setHTMLURI := "https://choc.localhost/getHTMLInternal",
    pageHTML := { data := [], mimeType := "text/html" },
    fetchResource := demoResolver,
    customUserAgent := "" }

/-- Witness for C6: the three resolver outcomes at concrete paths. -/
theorem C6_witness :
    linuxOnResourceRequested demoResolver "/x"
      = LinuxResourceAnswer.response 200 (some "text/plain")
          [("Cache-Control", "no-store"), ("Access-Control-Allow-Origin", "*")]
          [104, 105] ∧
    linuxOnResourceRequested demoResolver "/missing"
      = LinuxResourceAnswer.response 404 none [] [] ∧
    winOnResourceRequested demoWinEnv "https://choc.localhost/boom"
      = WinResourceAnswer.efail := by
  have h := C6_resource_fetch_responses
  refine ⟨(h.1 demoResolver "/x").1 { data := [104, 105], mimeType := "text/plain" } rfl,
          (h.1 demoResolver "/missing").2.1 rfl, ?_⟩
  exact (h.2 demoWinEnv "https://choc.localhost/boom" (by decide)).2.2 rfl

end ChocWebView
